import Mathlib

/-!
Verification of the VenusBackend translation layer
(`pylabrobot/liquid_handling/backends/hamilton/venus_backend.py`).

The Python code is shallowly embedded: Python string/list primitives are
modelled on Lean `String`/`List` with explicit error propagation through
`Except` (Python exceptions), and the command transport is modelled as an
explicit response value passed to each dispatch method.
-/

/-- Python exceptions that the embedded code can raise. -/
inductive PyErr where
  | indexError
  | valueError
  | attributeError
  | unboundLocalError
  deriving DecidableEq, Repr

/-- ASCII whitespace accepted by Python `int()` around the digits.
(Python also strips some Unicode spaces; the names fed to `int` here are
ASCII.) -/
def pyIsSpace (c : Char) : Bool :=
  c == ' ' || c == '\t' || c == '\n' || c == '\r' || c == '\x0b' || c == '\x0c'

/-- Strip leading and trailing whitespace from a character list. -/
def pyStripChars (l : List Char) : List Char :=
  ((l.dropWhile pyIsSpace).reverse.dropWhile pyIsSpace).reverse

/-- Value of a list of ASCII digits, most significant first. -/
def digitsToNat (l : List Char) : Nat :=
  l.foldl (fun n c => n * 10 + (c.toNat - 48)) 0

/-- Parse a nonempty all-digit character list, else `ValueError`. -/
def pyIntCore (l : List Char) : Except PyErr Int :=
  if l ≠ [] ∧ l.all Char.isDigit then .ok (Int.ofNat (digitsToNat l))
  else .error .valueError

/-- Python `int(s)`: optional surrounding whitespace, optional sign, digits.
(Digit-group underscores never occur here: every string passed to `int`
in the source is an `"_"`-split segment.) -/
def pyInt (s : String) : Except PyErr Int :=
  match pyStripChars s.data with
  | '-' :: rest => (pyIntCore rest).map (fun n => -n)
  | '+' :: rest => pyIntCore rest
  | l => pyIntCore l

/-- Python `s.split(sep)` for a single-character separator (the source only
splits on `"_"` and `"-"`). Never returns an empty list. -/
def pySplitChar (s : String) (c : Char) : List String :=
  (s.data.foldr
    (fun x acc =>
      match acc with
      | [] => [[x]]
      | a :: rest => if x == c then [] :: (a :: rest) else (x :: a) :: rest)
    [[]]).map (fun l => ⟨l⟩)

/-- Python list indexing `xs[i]`: negative indices count from the end,
out-of-range raises `IndexError`. -/
def pyIndex {α : Type} (xs : List α) (i : Int) : Except PyErr α :=
  let j : Int := if i < 0 then i + xs.length else i
  if h : 0 ≤ j ∧ j < (xs.length : Int) then
    .ok (xs.get ⟨j.toNat, by omega⟩)
  else
    .error .indexError

/-- Python `sep.join(xs)`. -/
def pyJoin (sep : String) (xs : List String) : String :=
  match xs with
  | [] => ""
  | x :: rest => rest.foldl (fun acc y => acc ++ sep ++ y) x

/-- Python `chr(n)`: valid for `0 ≤ n < 0x110000`.  Lean `Char` cannot hold
surrogate code points (`0xD800`–`0xDFFF`), which Python `chr` accepts; they
are mapped to an error here and are unreachable in the properties below. -/
def pyChr (n : Int) : Except PyErr Char :=
  if 0 ≤ n ∧ (n < 55296 ∨ (57344 ≤ n ∧ n < 1114112)) then
    .ok (Char.ofNat n.toNat)
  else
    .error .valueError

/-- Is `small` a prefix of `big`? (helper for Python `in` on strings) -/
def startsWithChars : List Char → List Char → Bool
  | [], _ => true
  | _ :: _, [] => false
  | a :: as, b :: bs => a == b && startsWithChars as bs

/-- Does `hay` contain `needle` as a contiguous run? -/
def containsChars (needle : List Char) : List Char → Bool
  | [] => startsWithChars needle []
  | c :: rest => startsWithChars needle (c :: rest) || containsChars needle rest

/-- Python `needle in hay` for strings. -/
def pyContains (hay needle : String) : Bool :=
  containsChars needle.data hay.data

/-- Python `s.lower()` (ASCII; device fault texts are ASCII). -/
def pyLower (s : String) : String :=
  ⟨s.data.map Char.toLower⟩

/-- The resource kinds that the backend inspects with `isinstance`.
`deck` and `other` stand for any further `Resource` subclass. -/
inductive RKind where
  | plate
  | tipRack
  | well
  | tipSpot
  | tube
  | trash
  | container
  | deck
  | other
  deriving DecidableEq, Repr

/-- A PyLabRobot `Resource`: kind tag, name, optional parent link,
`num_items_y` (meaningful for itemized resources), ordered children. -/
inductive Resource where
  | mk (kind : RKind) (name : String) (parent : Option Resource)
       (num_items_y : Nat) (children : List Resource)

def Resource.kind : Resource → RKind
  | .mk k _ _ _ _ => k

def Resource.name : Resource → String
  | .mk _ n _ _ _ => n

def Resource.parent : Resource → Option Resource
  | .mk _ _ p _ _ => p

def Resource.num_items_y : Resource → Nat
  | .mk _ _ _ y _ => y

def Resource.children : Resource → List Resource
  | .mk _ _ _ _ c => c

/-- In PyLabRobot, `Well`, `Tube` and `Trash` are subclasses of `Container`;
this mirrors `isinstance(resource, Container)`. -/
def isContainerKind (k : RKind) : Bool :=
  k == .container || k == .well || k == .tube || k == .trash

/-- `VenusBackend._resource_to_pos_str` (venus_backend.py lines 107-127),
with Python exceptions made explicit: a `None` parent raises
`AttributeError`, the `int(... .split("_")[-2])` parse raises
`IndexError`/`ValueError`, and a resource kind matching none of the
`isinstance` branches leaves `pos_id` unbound, raising
`UnboundLocalError` at the final f-string. -/
def _resource_to_pos_str (resource : Resource) : Except PyErr String :=
  if resource.kind = .plate ∨ resource.kind = .tipRack then
    .ok (resource.name ++ ", A1")
  else
    match resource.parent with
    | none => .error .attributeError
    | some parent =>
      match pyIndex (pySplitChar resource.name '_') (-2) with
      | .error e => .error e
      | .ok colSeg =>
        match pyInt colSeg with
        | .error e => .error e
        | .ok pos_id_col =>
          match pyIndex (pySplitChar resource.name '_') (-1) with
          | .error e => .error e
          | .ok rowSeg =>
            match pyInt rowSeg with
            | .error e => .error e
            | .ok pos_id_row =>
              if resource.kind = .tipSpot then
                .ok (parent.name ++ ", " ++
                     toString (pos_id_col * (parent.num_items_y : Int) + pos_id_row + 1))
              else if resource.kind = .well then
                match pyChr (65 + pos_id_row) with
                | .error e => .error e
                | .ok letter =>
                  .ok (parent.name ++ ", " ++
                       (String.singleton letter ++ toString (pos_id_col + 1)))
              else if resource.kind = .tube then
                match pyIndex (pySplitChar parent.name '-') (-1) with
                | .error e => .error e
                | .ok pid =>
                  match parent.parent with
                  | none => .error .attributeError
                  | some grandparent => .ok (grandparent.name ++ ", " ++ pid)
              else
                .error .unboundLocalError

/-- Python list assignment `xs[i] = v`: negative indices count from the end,
out-of-range raises `IndexError`. -/
def listAssign (xs : List String) (i : Int) (v : String) : Except PyErr (List String) :=
  let j : Int := if i < 0 then i + xs.length else i
  if 0 ≤ j ∧ j < (xs.length : Int) then .ok (xs.set j.toNat v)
  else .error .indexError

/-- The `for i in use_channels: channels_mask[i] = "1"` loop
(venus_backend.py lines 139-140). -/
def assignLoop (use_channels : List Int) (mask : List String) : Except PyErr (List String) :=
  match use_channels with
  | [] => .ok mask
  | i :: rest => do
    let m ← listAssign mask i "1"
    assignLoop rest m

/-- A Python list comprehension applying a fallible function: the first
raised exception propagates. -/
def mapExcept {α β : Type} (f : α → Except PyErr β) : List α → Except PyErr (List β)
  | [] => .ok []
  | a :: rest => do
    let b ← f a
    let bs ← mapExcept f rest
    .ok (b :: bs)

/-- `VenusBackend._ops_to_channel_info` (venus_backend.py lines 129-146).
The Python function receives the operation objects and projects
`op.resource`; here it receives the projected resources directly. -/
def _ops_to_channel_info (num_channels : Nat) (op_resources : List Resource)
    (use_channels : List Int) : Except PyErr (String × String) := do
  let channels_mask ← assignLoop use_channels (List.replicate num_channels "0")
  let channel_variable := pyJoin "" channels_mask
  let positions ← mapExcept _resource_to_pos_str op_resources
  let labware_positions_str := pyJoin ";" positions
  .ok (labware_positions_str, channel_variable)

/-- Values appearing in a pyhamilton parameter map.  Aspiration volumes are
floats in the source; they are only passed through untouched, so they are
modelled as integers. -/
inductive PyVal where
  | str (s : String)
  | int (n : Int)
  | list (l : List PyVal)
  deriving Repr

/-- Python dict construction with a trailing splat, as in the source's
literal parameter maps with a trailing double-star kwargs: keys of the
second map override in place, new keys append in order. -/
def pyDictMerge (a b : List (String × PyVal)) : List (String × PyVal) :=
  a.map (fun kv => (kv.1, (b.lookup kv.1).getD kv.2)) ++
    b.filter (fun kv => (a.lookup kv.1).isNone)

/-- The outcome of `send_command` + `wait_on_response`: success, or a
`HamiltonError` carrying the device fault text. -/
inductive TransportResult where
  | success
  | fault (text : String)

/-- Errors a dispatch method can surface to the caller. -/
inductive BackendError where
  | py (e : PyErr)
  | hamilton (text : String)
  | noTipError (msg cause : String)
  | hasTipError (msg cause : String)
  | tooLittleLiquidError (cause : String)
  | notImplementedError (msg : String)
  | layoutMismatchError
  deriving Repr

/-- A `Pickup` operation (only the field the backend reads). -/
structure Pickup where
  resource : Resource

/-- A `Drop` operation (only the field the backend reads). -/
structure Drop where
  resource : Resource

/-- A `SingleChannelAspiration` operation (volume is a float in the source,
passed through untouched; modelled as an integer). -/
structure SingleChannelAspiration where
  resource : Resource
  volume : Int

/-- A `ResourceMove` operation. -/
structure ResourceMove where
  resource : Resource

def DEFAULT_LIQUID_CLASS : String := "StandardVolumeFilter_Water_DispenseSurface_Part"

/-- `VenusBackend.pick_up_tips` (venus_backend.py lines 148-159).  On
success it returns the parameter map submitted with the PICKUP command;
on a fault it applies the except-clause translation. -/
def pick_up_tips (num_channels : Nat) (ops : List Pickup) (use_channels : List Int)
    (kwargs : List (String × PyVal)) (resp : TransportResult) :
    Except BackendError (List (String × PyVal)) :=
  match _ops_to_channel_info num_channels (ops.map Pickup.resource) use_channels with
  | .error e => .error (.py e)
  | .ok lpcv =>
    let params := pyDictMerge
      [("labwarePositions", PyVal.str lpcv.1), ("channelVariable", PyVal.str lpcv.2)] kwargs
    match resp with
    | .success => .ok params
    | .fault e =>
      if pyContains e "No tip" then
        .error (.noTipError "Failed to pick up tip, none present." e)
      else .error (.hamilton e)

/-- Parameter assembly of `VenusBackend.drop_tips`
(venus_backend.py lines 163-168): if every target resource is `Trash`,
the default-waste parameters are built, but the channel mask is still
obtained by calling `_ops_to_channel_info` (which also encodes every
position) and projecting its second component. -/
def drop_tips_params (num_channels : Nat) (ops : List Drop) (use_channels : List Int)
    (kwargs : List (String × PyVal)) : Except PyErr (List (String × PyVal)) :=
  if ops.all (fun op => op.resource.kind == .trash) then
    match _ops_to_channel_info num_channels (ops.map Drop.resource) use_channels with
    | .error e => .error e
    | .ok lpcv =>
      .ok (pyDictMerge
        [("useDefaultWaste", PyVal.int 1), ("channelVariable", PyVal.str lpcv.2)] kwargs)
  else
    match _ops_to_channel_info num_channels (ops.map Drop.resource) use_channels with
    | .error e => .error e
    | .ok lpcv =>
      .ok (pyDictMerge
        [("labwarePositions", PyVal.str lpcv.1), ("channelVariable", PyVal.str lpcv.2)] kwargs)

/-- `VenusBackend.drop_tips` (venus_backend.py lines 161-176). -/
def drop_tips (num_channels : Nat) (ops : List Drop) (use_channels : List Int)
    (kwargs : List (String × PyVal)) (resp : TransportResult) :
    Except BackendError (List (String × PyVal)) :=
  match drop_tips_params num_channels ops use_channels kwargs with
  | .error e => .error (.py e)
  | .ok params =>
    match resp with
    | .success => .ok params
    | .fault e =>
      if pyContains e "Tip already fitted" then
        .error (.hasTipError "Attempted to drop tip when another was already fitted." e)
      else .error (.hamilton e)

/-- Parameter assembly of `VenusBackend.aspirate`
(venus_backend.py lines 180-186).  The trailing kwargs splat is commented
out in the source; kwargs only feed the `liquidClass` default lookup. -/
def aspirate_params (num_channels : Nat) (ops : List SingleChannelAspiration)
    (use_channels : List Int) (kwargs : List (String × PyVal)) :
    Except PyErr (List (String × PyVal)) :=
  match _ops_to_channel_info num_channels (ops.map SingleChannelAspiration.resource)
      use_channels with
  | .error e => .error e
  | .ok lpcv =>
    let volumes := ops.map (fun op => PyVal.int op.volume)
    .ok [("labwarePositions", PyVal.str lpcv.1), ("volumes", PyVal.list volumes),
         ("channelVariable", PyVal.str lpcv.2),
         ("liquidClass", (kwargs.lookup "liquidClass").getD (PyVal.str DEFAULT_LIQUID_CLASS))]

/-- `VenusBackend.aspirate` (venus_backend.py lines 178-194). -/
def aspirate (num_channels : Nat) (ops : List SingleChannelAspiration)
    (use_channels : List Int) (kwargs : List (String × PyVal)) (resp : TransportResult) :
    Except BackendError (List (String × PyVal)) :=
  match aspirate_params num_channels ops use_channels kwargs with
  | .error e => .error (.py e)
  | .ok params =>
    match resp with
    | .success => .ok params
    | .fault e =>
      if pyContains (pyLower e) "not enough liquid" then
        .error (.tooLittleLiquidError e)
      else .error (.hamilton e)

/-- The `positions` list of `VenusBackend._resource_to_96_pos_str`
(venus_backend.py lines 210-220), before the `";".join`. -/
def _resource_to_96_positions (resource : Resource) : Except PyErr (List String) :=
  if isContainerKind resource.kind then
    .ok (List.replicate 96 (resource.name ++ ", 1"))
  else
    mapExcept _resource_to_pos_str resource.children

/-- `VenusBackend._resource_to_96_pos_str` (venus_backend.py lines 210-220). -/
def _resource_to_96_pos_str (resource : Resource) : Except PyErr String :=
  (_resource_to_96_positions resource).map (pyJoin ";")

/-- Modelled from the spec: the pyhamilton 96-position dispatch
(`send_command` for PICKUP96/EJECT96/ASPIRATE96/DISPENSE96, whose code is
not under src/) fails with `LayoutMismatchError` when the 96-slot expansion
did not yield exactly 96 entries. -/
def dispatch96_validate (positions : List String) : Except BackendError (List String) :=
  if positions.length = 96 then .ok positions else .error .layoutMismatchError

/-- The 96-slot expansion followed by the spec-modelled downstream
validation, as used by the four multi-head operations. -/
def dispatch96 (resource : Resource) : Except BackendError (List String) :=
  match _resource_to_96_positions resource with
  | .error e => .error (.py e)
  | .ok positions => dispatch96_validate positions

/-- State of the `HamiltonInterface` transport handle. -/
structure HamiltonIfaceState where
  started : Bool
  deriving DecidableEq, Repr

/-- Backend state: the `hamilton_interface` attribute (set in `__init__` to
`None`, i.e. disconnected), and the base-class completion flag
(modelled from the spec: reaching the `Ready` lifecycle state when
`super().setup()` runs). -/
structure BackendState where
  hamilton_interface : Option HamiltonIfaceState
  setup_finished : Bool
  deriving DecidableEq, Repr

/-- `VenusBackend.setup` (venus_backend.py lines 71-98): connect and start
the interface, submit INITIALIZE, await it; a `HamiltonError` is logged and
re-raised.  Returns the call outcome together with the final backend
state. -/
def setup (s : BackendState) (initResp : TransportResult) :
    Except BackendError Unit × BackendState :=
  let s1 : BackendState := { s with hamilton_interface := some ⟨true⟩ }
  match initResp with
  | .success => (.ok (), { s1 with setup_finished := true })
  | .fault e => (.error (.hamilton e), s1)

/-- `VenusBackend.move_picked_up_resource` (venus_backend.py lines 300-304):
raises `NotImplementedError` unconditionally; the transport response
argument is never consulted. -/
def move_picked_up_resource (_move : ResourceMove) (_resp : TransportResult) :
    Except BackendError Unit :=
  .error (.notImplementedError
    ("move_picked_up_resource is not implemented for this backend. " ++
     "This operation requires translating absolute coordinates to " ++
     "deck layout positions, which is not supported."))

/-! ### Helper lemmas -/

theorem getD_set (l : List String) (m n : Nat) (v d : String) :
    (l.set m v).getD n d = if m = n ∧ m < l.length then v else l.getD n d := by
  rcases Nat.lt_or_ge m l.length with hm | hm
  · by_cases heq : m = n
    · subst heq
      rw [if_pos ⟨rfl, hm⟩, List.getD_eq_getElem?_getD, List.getElem?_set_self]
      · rfl
      · exact hm
    · rw [if_neg (by tauto), List.getD_eq_getElem?_getD, List.getElem?_set_ne heq,
        List.getD_eq_getElem?_getD]
  · rw [List.set_eq_of_length_le (by omega), if_neg (by omega)]

theorem map_getD_range (l : List String) (d : String) :
    (List.range l.length).map (fun j => l.getD j d) = l := by
  induction l with
  | nil => simp
  | cons x xs ih =>
    rw [List.length_cons, List.range_succ_eq_map, List.map_cons, List.map_map]
    rw [show ((fun j => (x :: xs).getD j d) ∘ Nat.succ) = (fun j => xs.getD j d) from
      funext (fun j => List.getD_cons_succ)]
    rw [List.getD_cons_zero, ih]

theorem assignLoop_ok (uses : List Int) (acc : List String)
    (h : ∀ i ∈ uses, 0 ≤ i ∧ i < (acc.length : Int)) :
    assignLoop uses acc =
      .ok ((List.range acc.length).map
        (fun (j : Nat) => if (j : Int) ∈ uses then "1" else acc.getD j "")) := by
  induction uses generalizing acc with
  | nil =>
    simp only [assignLoop, List.not_mem_nil, if_false]
    rw [map_getD_range]
  | cons i rest ih =>
    obtain ⟨hi0, hilen⟩ := h i (List.mem_cons_self i rest)
    have hset : listAssign acc i "1" = .ok (acc.set i.toNat "1") := by
      simp only [listAssign]
      rw [if_neg (show ¬ i < 0 by omega)]
      rw [if_pos ⟨hi0, hilen⟩]
    have hstep : assignLoop (i :: rest) acc = assignLoop rest (acc.set i.toNat "1") := by
      simp only [assignLoop, hset]
      rfl
    have hlen : (acc.set i.toNat "1").length = acc.length := List.length_set acc i.toNat "1"
    rw [hstep, ih (acc.set i.toNat "1")
      (fun x hx => by rw [hlen]; exact h x (List.mem_cons_of_mem i hx))]
    rw [hlen]
    congr 1
    apply List.ext_getElem (by simp)
    intro k h1 h2
    have hk1 : k < acc.length := by simpa using h1
    simp only [List.getElem_map, List.getElem_range]
    by_cases hk : (k : Int) ∈ rest
    · rw [if_pos hk, if_pos (List.mem_cons_of_mem i hk)]
    · rw [if_neg hk]
      by_cases hki : (k : Int) = i
      · rw [getD_set, if_pos ⟨by omega, by omega⟩,
          if_pos (by rw [List.mem_cons]; exact Or.inl hki)]
      · rw [getD_set, if_neg (by omega),
          if_neg (by rw [List.mem_cons]; tauto)]

theorem pyJoin_foldl_length (l : List String) (acc : String) :
    (l.foldl (fun a y => a ++ "" ++ y) acc).length =
      acc.length + (l.map String.length).sum := by
  induction l generalizing acc with
  | nil => simp
  | cons x xs ih =>
    rw [List.foldl_cons, ih]
    simp [String.length_append]
    omega

theorem pyJoin_replicate_zero_length (n : Nat) :
    (pyJoin "" (List.replicate n "0")).length = n := by
  cases n with
  | zero => rfl
  | succ m =>
    rw [List.replicate_succ]
    show ((List.replicate m "0").foldl (fun a y => a ++ "" ++ y) "0").length = m + 1
    rw [pyJoin_foldl_length, List.map_replicate, List.sum_replicate,
      show "0".length = 1 from rfl, smul_eq_mul]
    omega

theorem mapExcept_ok_forall₂ {α β : Type} (f : α → Except PyErr β) :
    ∀ (l : List α) (ps : List β), mapExcept f l = .ok ps →
      List.Forall₂ (fun a b => f a = .ok b) l ps := by
  intro l
  induction l with
  | nil => intro ps h; cases h; exact List.Forall₂.nil
  | cons a rest ih =>
    intro ps h
    unfold mapExcept at h
    cases hfa : f a with
    | error e => rw [hfa] at h; exact Except.noConfusion h
    | ok b =>
      rw [hfa] at h
      cases hrest : mapExcept f rest with
      | error e => rw [hrest] at h; exact Except.noConfusion h
      | ok bs =>
        rw [hrest] at h
        have h2 : (Except.ok (b :: bs) : Except PyErr (List β)) = .ok ps := h
        obtain rfl : b :: bs = ps := Except.ok.inj h2
        exact List.Forall₂.cons hfa (ih bs hrest)

/-! ### Claims -/

/-- C1 counterexample: a Tube named with the documented `<rack>-<id>` pattern
(here `rack1-5`, parent `spot-5`, grandparent `rackR`) does not encode to
the claimed `"rackR, 5"`: the unconditional `int(name.split("_")[-2])`
parse raises `IndexError` first, because the tube's name has no `_`
segments. -/
theorem tube_pos_claim_counterexample :
    ¬ (_resource_to_pos_str (Resource.mk .tube "rack1-5"
        (some (Resource.mk .other "spot-5"
          (some (Resource.mk .other "rackR" none 0 [])) 0 [])) 0 []) =
      Except.ok "rackR, 5") := by
  intro h
  exact Except.noConfusion h

/-- C1 amended: encoding a Tube succeeds only when the tube's own name's
last two `_`-delimited segments parse as Python ints; the labware name is
the grandparent's name, and the position id is the substring after the
last `-` in the *parent's* name (not the tube's own name). -/
theorem tube_pos_amended (t p g : Resource) (colS rowS pid : String) (col row : Int)
    (hk : t.kind = .tube) (hp : t.parent = some p) (hg : p.parent = some g)
    (hc : pyIndex (pySplitChar t.name '_') (-2) = .ok colS)
    (hci : pyInt colS = .ok col)
    (hr : pyIndex (pySplitChar t.name '_') (-1) = .ok rowS)
    (hri : pyInt rowS = .ok row)
    (hpid : pyIndex (pySplitChar p.name '-') (-1) = .ok pid) :
    _resource_to_pos_str t = .ok (g.name ++ ", " ++ pid) := by
  simp [_resource_to_pos_str, hk, hp, hc, hci, hr, hri, hpid, hg]

/-- C1 witness: a concrete tube (name `t_1_2`, parent `rack1-7`,
grandparent `rackA`) encodes to `"rackA, 7"`. -/
theorem tube_pos_amended_witness :
    _resource_to_pos_str (Resource.mk .tube "t_1_2"
        (some (Resource.mk .other "rack1-7"
          (some (Resource.mk .other "rackA" none 0 [])) 0 [])) 0 []) =
      .ok ((Resource.mk .other "rackA" none 0 [] : Resource).name ++ ", " ++ "7") :=
  tube_pos_amended
    (Resource.mk .tube "t_1_2"
      (some (Resource.mk .other "rack1-7"
        (some (Resource.mk .other "rackA" none 0 [])) 0 [])) 0 [])
    (Resource.mk .other "rack1-7"
      (some (Resource.mk .other "rackA" none 0 [])) 0 [])
    (Resource.mk .other "rackA" none 0 [])
    "1" "2" "7" 1 2 rfl rfl rfl rfl rfl rfl rfl rfl

/-- C2: for every Well whose name's last two `_`-delimited segments parse
as integers `col`, `row` (zero-based; `row` small enough that the letter
`chr(65 + row)` presupposed by the claim exists), encoding yields
`"<parent.name>, <chr(65 + row)><col + 1>"`. -/
theorem well_pos_encode (w p : Resource) (colS rowS : String) (col row : Int)
    (hk : w.kind = .well) (hp : w.parent = some p)
    (hc : pyIndex (pySplitChar w.name '_') (-2) = .ok colS)
    (hci : pyInt colS = .ok col)
    (hr : pyIndex (pySplitChar w.name '_') (-1) = .ok rowS)
    (hri : pyInt rowS = .ok row)
    (h0 : 0 ≤ row) (hrange : 65 + row < 55296) :
    _resource_to_pos_str w =
      .ok (p.name ++ ", " ++
        (String.singleton (Char.ofNat (65 + row).toNat) ++ toString (col + 1))) := by
  have hchr : pyChr (65 + row) = .ok (Char.ofNat (65 + row).toNat) := by
    rw [pyChr, if_pos ⟨by omega, Or.inl hrange⟩]
  simp [_resource_to_pos_str, hk, hp, hc, hci, hr, hri, hchr]

/-- C2 witness: the Well named `w_0_0` with parent `par` encodes via the
general theorem, its hypotheses discharged concretely. -/
theorem well_pos_encode_witness :
    _resource_to_pos_str (Resource.mk .well "w_0_0"
        (some (Resource.mk .plate "par" none 0 [])) 0 []) =
      .ok ((Resource.mk .plate "par" none 0 [] : Resource).name ++ ", " ++
        (String.singleton (Char.ofNat ((65 : Int) + 0).toNat) ++ toString ((0 : Int) + 1))) :=
  well_pos_encode
    (Resource.mk .well "w_0_0" (some (Resource.mk .plate "par" none 0 [])) 0 [])
    (Resource.mk .plate "par" none 0 [])
    "0" "0" 0 0 rfl rfl rfl rfl rfl rfl (by omega) (by omega)

/-- C3 counterexample: the Well named `plateA_2_1` with parent `plateA`
does not encode to the claimed `"plateA, C3"`: the code letters the row
(`row = 1` gives `B`), so the result is `"plateA, B3"`. -/
theorem well_plateA_2_1_counterexample :
    ¬ (_resource_to_pos_str (Resource.mk .well "plateA_2_1"
        (some (Resource.mk .plate "plateA" none 0 [])) 0 []) =
      Except.ok "plateA, C3") := by
  intro h
  have h2 : (Except.ok "plateA, B3" : Except PyErr String) = Except.ok "plateA, C3" := h
  exact absurd (Except.ok.inj h2) (by decide)

/-- C3 amended: `plateA_2_1` parses as `col = 2`, `row = 1`; the position
id is `chr(65 + 1) = B` followed by `2 + 1 = 3`, so the encoding is
`"plateA, B3"`. -/
theorem well_plateA_2_1_encode :
    _resource_to_pos_str (Resource.mk .well "plateA_2_1"
        (some (Resource.mk .plate "plateA" none 0 [])) 0 []) =
      .ok "plateA, B3" := rfl

/-- Mask after the assignment loop on a fresh all-zero mask of length `n`,
for in-range indices: `"1"` exactly at the used indices. -/
theorem buildMask_replicate (n : Nat) (uses : List Int)
    (h : ∀ i ∈ uses, 0 ≤ i ∧ i < (n : Int)) :
    assignLoop uses (List.replicate n "0") =
      .ok ((List.range n).map (fun (j : Nat) => if (j : Int) ∈ uses then "1" else "0")) := by
  rw [assignLoop_ok uses _ (by simpa using h), List.length_replicate]
  congr 1
  apply List.ext_getElem (by simp)
  intro k h1 h2
  have hk1 : k < n := by simpa using h1
  simp only [List.getElem_map, List.getElem_range]
  by_cases hk : (k : Int) ∈ uses
  · rw [if_pos hk, if_pos hk]
  · rw [if_neg hk, if_neg hk, List.getD_eq_getElem?_getD, List.getElem?_replicate,
      if_pos hk1]
    rfl

/-- C4 counterexample: with `num_channels = 2` and the duplicated
used-channel list `[0, 0]`, the channel-mask construction does not fail at
all (there is no `InvalidChannelError` in the code): it returns the mask
`"10"`. -/
theorem channel_mask_claim_counterexample :
    _ops_to_channel_info 2 [] [0, 0] = .ok ("", "10") := rfl

/-- C4 amended: the code performs no validation of its own.  An index
outside `[-num_channels, num_channels)` raises Python `IndexError` (not an
`InvalidChannelError`, which does not exist in the code); duplicates are
accepted idempotently; and for every duplicate-free list of indices in
`[0, num_channels)` the construction yields a mask of length
`num_channels` with `"1"` exactly at the used indices and `"0"`
elsewhere, index 0 first (shown through `_ops_to_channel_info` with an
empty operation list; the mask does not depend on the operations). -/
theorem channel_mask_amended (num_channels : Nat) (use_channels : List Int)
    (hrange : ∀ i ∈ use_channels, 0 ≤ i ∧ i < (num_channels : Int))
    (_hnodup : use_channels.Nodup) :
    _ops_to_channel_info num_channels [] use_channels =
      .ok ("", pyJoin "" ((List.range num_channels).map
        (fun (j : Nat) => if (j : Int) ∈ use_channels then "1" else "0"))) := by
  have hmask := buildMask_replicate num_channels use_channels hrange
  simp only [_ops_to_channel_info, hmask]
  rfl

/-- C4 witness: three channels, used set `{0, 2}`; the hypotheses hold by
computation and the mask is `"101"`. -/
theorem channel_mask_amended_witness :
    _ops_to_channel_info 3 [] [0, 2] =
      .ok ("", pyJoin "" ((List.range 3).map
        (fun (j : Nat) => if (j : Int) ∈ ([0, 2] : List Int) then "1" else "0"))) :=
  channel_mask_amended 3 [0, 2] (by decide) (by decide)

/-- C5: for a Plate or TipRack whose expansion succeeds, the expansion has
one entry per child in native order; the spec-modelled downstream
validation passes exactly when there are 96 children and otherwise fails
with `LayoutMismatchError`. -/
theorem expansion96_dispatch (r : Resource) (ps : List String)
    (hk : r.kind = .plate ∨ r.kind = .tipRack)
    (hps : _resource_to_96_positions r = .ok ps) :
    List.Forall₂ (fun c q => _resource_to_pos_str c = .ok q) r.children ps ∧
    ps.length = r.children.length ∧
    (r.children.length = 96 → dispatch96 r = .ok ps) ∧
    (r.children.length ≠ 96 → dispatch96 r = .error .layoutMismatchError) := by
  have hcont : isContainerKind r.kind = false := by
    rcases hk with h | h <;> rw [h] <;> rfl
  have hmap : mapExcept _resource_to_pos_str r.children = .ok ps := by
    rw [_resource_to_96_positions] at hps
    simpa [hcont] using hps
  have hf := mapExcept_ok_forall₂ _resource_to_pos_str r.children ps hmap
  have hlen : ps.length = r.children.length := (List.Forall₂.length_eq hf).symm
  refine ⟨hf, hlen, ?_, ?_⟩
  · intro h96
    simp only [dispatch96, hps, dispatch96_validate]
    rw [if_pos (by omega)]
  · intro h96
    simp only [dispatch96, hps, dispatch96_validate]
    rw [if_neg (by omega)]

/-- A 96-well plate used to instantiate the expansion theorem. -/
def plateEx96 : Resource :=
  Resource.mk .plate "plate96" none 0
    (List.replicate 96
      (Resource.mk .well "p_0_0" (some (Resource.mk .plate "p" none 0 [])) 0 []))

set_option maxRecDepth 8192 in
/-- C5 witness: a concrete plate with exactly 96 children; the expansion
succeeds with 96 entries and the validated dispatch accepts it. -/
theorem expansion96_dispatch_witness :
    List.Forall₂ (fun c q => _resource_to_pos_str c = .ok q)
      plateEx96.children (List.replicate 96 "p, A1") ∧
    (List.replicate 96 "p, A1").length = plateEx96.children.length ∧
    (plateEx96.children.length = 96 →
      dispatch96 plateEx96 = .ok (List.replicate 96 "p, A1")) ∧
    (plateEx96.children.length ≠ 96 →
      dispatch96 plateEx96 = .error .layoutMismatchError) :=
  expansion96_dispatch plateEx96 (List.replicate 96 "p, A1") (Or.inl rfl) rfl

/-- C6: the intended all-Trash default-waste branch of `drop_tips` is
unreachable for any nonempty batch: to obtain just the channel mask it
calls `_ops_to_channel_info`, which also position-encodes every Trash
resource, and encoding a Trash (here named `trash` on deck `deck`) raises
`IndexError` before any parameter map is assembled.  The claimed
`useDefaultWaste=1` map is therefore never produced for this batch. -/
theorem drop_tips_trash_batch_bug :
    drop_tips 16
      [Drop.mk (Resource.mk .trash "trash"
        (some (Resource.mk .deck "deck" none 0 [])) 0 [])]
      [0] [] .success =
      .error (.py .indexError) := rfl

/-- C9: `move_picked_up_resource` fails unconditionally with the
`NotImplementedError` (the spec's `UnsupportedOperationError`), for every
operation and regardless of the transport response — it never submits a
command. -/
theorem move_picked_up_resource_unsupported
    (move : ResourceMove) (resp : TransportResult) :
    move_picked_up_resource move resp =
      .error (.notImplementedError
        ("move_picked_up_resource is not implemented for this backend. " ++
         "This operation requires translating absolute coordinates to " ++
         "deck layout positions, which is not supported.")) := rfl

/-- C10: for the empty batch, the vacuous all-Trash check sends
`drop_tips` down the default-waste branch: the parameter map is exactly
`useDefaultWaste=1` plus the all-zero channel mask (no `labwarePositions`
key), and the mask has length `num_channels`. -/
theorem drop_tips_empty_batch (num_channels : Nat) :
    drop_tips_params num_channels [] [] [] =
      .ok [("useDefaultWaste", PyVal.int 1),
           ("channelVariable", PyVal.str (pyJoin "" (List.replicate num_channels "0")))] ∧
    (pyJoin "" (List.replicate num_channels "0")).length = num_channels :=
  ⟨rfl, pyJoin_replicate_zero_length num_channels⟩

/-- C8 counterexample: when INITIALIZE faults during `setup` on a fresh
backend, the final state is not `Disconnected`: the transport interface
opened at the start of `setup` is left set and started (no cleanup runs
before the re-raise). -/
theorem setup_fault_counterexample :
    ¬ ((setup (BackendState.mk none false)
        (TransportResult.fault "init failed")).2.hamilton_interface = none) := by
  intro h
  exact Option.noConfusion h

/-- C8 amended: an INITIALIZE fault makes `setup` re-raise the fault, but
the backend is left with the transport connection open (the interface
handle set and started) and without reaching the completed-setup state. -/
theorem setup_fault_amended (s : BackendState) (e : String) :
    setup s (.fault e) =
      (.error (.hamilton e),
       BackendState.mk (some (HamiltonIfaceState.mk true)) s.setup_finished) := rfl

/-- C7: whenever parameter assembly succeeds and the dispatched command
faults, the fault text is translated with the original fault kept as
cause: `"No tip"`-matching text on `pick_up_tips` (in particular
`"No tip present"`) becomes `NoTipError`; `"Tip already fitted"` on
`drop_tips` becomes `HasTipError`; text containing `"not enough liquid"`
case-insensitively on `aspirate` becomes `TooLittleLiquidError`; and
any unrecognized fault propagates unchanged as the original
`HamiltonError`. -/
theorem fault_translation :
    (∀ (n : Nat) (ops : List Pickup) (uc : List Int) (kw : List (String × PyVal))
       (lpcv : String × String),
       _ops_to_channel_info n (ops.map Pickup.resource) uc = .ok lpcv →
       pick_up_tips n ops uc kw (.fault "No tip present") =
         .error (.noTipError "Failed to pick up tip, none present." "No tip present")) ∧
    (∀ (n : Nat) (ops : List Pickup) (uc : List Int) (kw : List (String × PyVal))
       (lpcv : String × String) (e : String),
       _ops_to_channel_info n (ops.map Pickup.resource) uc = .ok lpcv →
       pyContains e "No tip" = false →
       pick_up_tips n ops uc kw (.fault e) = .error (.hamilton e)) ∧
    (∀ (n : Nat) (ops : List Drop) (uc : List Int) (kw : List (String × PyVal))
       (p : List (String × PyVal)),
       drop_tips_params n ops uc kw = .ok p →
       drop_tips n ops uc kw (.fault "Tip already fitted") =
         .error (.hasTipError "Attempted to drop tip when another was already fitted."
           "Tip already fitted")) ∧
    (∀ (n : Nat) (ops : List Drop) (uc : List Int) (kw : List (String × PyVal))
       (p : List (String × PyVal)) (e : String),
       drop_tips_params n ops uc kw = .ok p →
       pyContains e "Tip already fitted" = false →
       drop_tips n ops uc kw (.fault e) = .error (.hamilton e)) ∧
    (∀ (n : Nat) (ops : List SingleChannelAspiration) (uc : List Int)
       (kw : List (String × PyVal)) (p : List (String × PyVal)) (e : String),
       aspirate_params n ops uc kw = .ok p →
       pyContains (pyLower e) "not enough liquid" = true →
       aspirate n ops uc kw (.fault e) = .error (.tooLittleLiquidError e)) ∧
    (∀ (n : Nat) (ops : List SingleChannelAspiration) (uc : List Int)
       (kw : List (String × PyVal)) (p : List (String × PyVal)) (e : String),
       aspirate_params n ops uc kw = .ok p →
       pyContains (pyLower e) "not enough liquid" = false →
       aspirate n ops uc kw (.fault e) = .error (.hamilton e)) := by
  refine ⟨?_, ?_, ?_, ?_, ?_, ?_⟩
  · intro n ops uc kw lpcv h
    simp [pick_up_tips, h]
    rfl
  · intro n ops uc kw lpcv e h hno
    simp [pick_up_tips, h, hno]
  · intro n ops uc kw p h
    simp [drop_tips, h]
    rfl
  · intro n ops uc kw p e h hno
    simp [drop_tips, h, hno]
  · intro n ops uc kw p e h hyes
    simp [aspirate, h, hyes]
  · intro n ops uc kw p e h hno
    simp [aspirate, h, hno]

/-- C7 witness: the six translation cases instantiated on empty batches
with concrete fault texts, including the claim's example
`"Not Enough Liquid in Well"`. -/
theorem fault_translation_witness :
    pick_up_tips 1 [] [] [] (.fault "No tip present") =
      .error (.noTipError "Failed to pick up tip, none present." "No tip present") ∧
    pick_up_tips 1 [] [] [] (.fault "device jam") = .error (.hamilton "device jam") ∧
    drop_tips 1 [] [] [] (.fault "Tip already fitted") =
      .error (.hasTipError "Attempted to drop tip when another was already fitted."
        "Tip already fitted") ∧
    drop_tips 1 [] [] [] (.fault "device jam") = .error (.hamilton "device jam") ∧
    aspirate 1 [] [] [] (.fault "Not Enough Liquid in Well") =
      .error (.tooLittleLiquidError "Not Enough Liquid in Well") ∧
    aspirate 1 [] [] [] (.fault "device jam") = .error (.hamilton "device jam") :=
  ⟨fault_translation.1 1 [] [] [] ("", "0") rfl,
   fault_translation.2.1 1 [] [] [] ("", "0") "device jam" rfl rfl,
   fault_translation.2.2.1 1 [] [] []
     [("useDefaultWaste", PyVal.int 1), ("channelVariable", PyVal.str "0")] rfl,
   fault_translation.2.2.2.1 1 [] [] []
     [("useDefaultWaste", PyVal.int 1), ("channelVariable", PyVal.str "0")]
     "device jam" rfl rfl,
   fault_translation.2.2.2.2.1 1 [] [] []
     [("labwarePositions", PyVal.str ""), ("volumes", PyVal.list []),
      ("channelVariable", PyVal.str "0"),
      ("liquidClass", PyVal.str DEFAULT_LIQUID_CLASS)]
     "Not Enough Liquid in Well" rfl rfl,
   fault_translation.2.2.2.2.2 1 [] [] []
     [("labwarePositions", PyVal.str ""), ("volumes", PyVal.list []),
      ("channelVariable", PyVal.str "0"),
      ("liquidClass", PyVal.str DEFAULT_LIQUID_CLASS)]
     "device jam" rfl rfl⟩
